import Mathlib

/-!
Verification of the ProtoStax ISS tracker (`iss.py`) against its
natural-language specification.

The script is shallowly embedded: Python floats become exact rationals,
Python `int()` truncation becomes an explicit truncation toward zero on `ℚ`,
PIL images become functions from pixel coordinates to pixel values, and the
fetch/render loop body becomes a pure function returning `Except` (an
uncaught Python exception is `Except.error`).
-/

/-! ### Map / Geo constants (module-level constants of `iss.py`) -/

/-- `max_lon = 180` — maximum longitude magnitude. -/
def max_lon : ℚ := 180

/-- `max_lat = 90` — maximum latitude magnitude. -/
def max_lat : ℚ := 90

/-- `map_width = 264` — pixel width of the world-map bitmap. -/
def map_width : ℤ := 264

/-- `map_height = 181` — pixel height of the world-map bitmap. -/
def map_height : ℤ := 181

/-- `hor_factor = map_width/float(max_lon*2)` — horizontal scaling factor. -/
def hor_factor : ℚ := (map_width : ℚ) / (max_lon * 2)

/-- `ver_factor = map_height/float(max_lat*2)` — vertical scaling factor. -/
def ver_factor : ℚ := (map_height : ℚ) / (max_lat * 2)

/-! ### Python `int()` on a rational -/

/-- Python's `int()` applied to a float: truncation toward zero
(`int(0.7) = 0`, `int(-0.7) = 0`).  On exact rationals this is the ceiling
for negative arguments and the floor otherwise. -/
def pyInt (q : ℚ) : ℤ := if q < 0 then ⌈q⌉ else ⌊q⌋

theorem pyInt_of_nonneg {q : ℚ} (h : 0 ≤ q) : pyInt q = ⌊q⌋ := by
  simp [pyInt, not_lt.mpr h]

theorem pyInt_mono : Monotone pyInt := by
  intro a b hab
  unfold pyInt
  split
  · split
    · exact Int.ceil_le_ceil hab
    · calc ⌈a⌉ ≤ (0 : ℤ) := Int.ceil_le.mpr (by exact_mod_cast le_of_lt (by assumption))
        _ ≤ ⌊b⌋ := Int.floor_nonneg.mpr (not_lt.mp (by assumption))
  · split
    · exact absurd (lt_of_le_of_lt hab (by assumption)) (by assumption)
    · exact Int.floor_le_floor hab

theorem pyInt_nonneg {q : ℚ} (h : 0 ≤ q) : 0 ≤ pyInt q := by
  rw [pyInt_of_nonneg h]; exact Int.floor_nonneg.mpr h

theorem pyInt_le_of_le {q : ℚ} {z : ℤ} (h : q ≤ (z : ℚ)) : pyInt q ≤ z := by
  unfold pyInt
  split
  · exact Int.ceil_le.mpr h
  · exact (Int.floor_le_floor h).trans (le_of_eq (Int.floor_intCast z))

/-! ### Projector: `Display.getXYFromLonLat` -/

/-- `Display.getXYFromLonLat(self, lat, lon)`:
`x = (int)((lon + max_lon) * hor_factor)` and
`y = (int)(map_height - (lat + max_lat) * ver_factor)`. -/
def getXYFromLonLat (lat lon : ℚ) : ℤ × ℤ :=
  (pyInt ((lon + max_lon) * hor_factor),
   pyInt ((map_height : ℚ) - (lat + max_lat) * ver_factor))

/-- Rounding to the nearest integer, as the spec's word "round" says
(Mathlib's `round`, i.e. `⌊q + 1/2⌋`); the source uses `int()` truncation
instead.  Used only to compare the spec's formula with the code. -/
def specRound (q : ℚ) : ℤ := round q

/-! ### Configuration constants of `iss.py` ("Change as desired" block) -/

/-- `DATA_INTERVAL = 30` seconds — update interval for fetching positions. -/
def DATA_INTERVAL : ℚ := 30

/-- `BIG_DOT_INTERVAL = 15 * 60` seconds — time between two big dots. -/
def BIG_DOT_INTERVAL : ℚ := 15 * 60

/-- `DISPLAY_REFRESH_INTERVAL = 3` — number of `DATA_INTERVAL` between
successive display updates. -/
def DISPLAY_REFRESH_INTERVAL : ℕ := 3

/-- `MAX_ORBIT_TRACES = 1.0` — maximum past orbits kept on the display. -/
def MAX_ORBIT_TRACES : ℚ := 1

/-! ### Trajectory window (`drawISS`, lines 76-82)

`maxPositionsToDraw = len(positions) - (MAX_ORBIT_TRACES * (90 * 60) / DATA_INTERVAL)`
and the loop `for i,t in reversed(list(enumerate(positions)))` that breaks
as soon as `i < maxPositionsToDraw`.  The spec names the subtrahend
`visible_count`.  The intervals are taken as parameters so the formulas can
be evaluated both at the script's constants and at the spec's examples. -/

/-- The spec's `visible_count = max_orbit_units × orbit_period_seconds /
sampling_interval_seconds`; in the code this is the inline expression
`MAX_ORBIT_TRACES * (90 * 60) / DATA_INTERVAL`. -/
def visibleCount (maxOrbit dataInterval : ℚ) : ℚ :=
  maxOrbit * (90 * 60) / dataInterval

/-- `maxPositionsToDraw = len(positions) - (MAX_ORBIT_TRACES * (90 * 60) / DATA_INTERVAL)`. -/
def maxPositionsToDraw (n : ℕ) (maxOrbit dataInterval : ℚ) : ℚ :=
  (n : ℚ) - visibleCount maxOrbit dataInterval

/-- The guard of the renderer's loop body: index `i` is still drawn iff
`not (i < maxPositionsToDraw)` (the loop `break`s at the first `i` with
`i < maxPositionsToDraw`). -/
def keepIdx (c : ℚ) (it : ℕ × α) : Bool := !decide ((it.1 : ℚ) < c)

/-- The enumerated samples the renderer visits, newest first:
`reversed(list(enumerate(positions)))` truncated at the `break`. -/
def renderSeq (c : ℚ) (ps : List α) : List (ℕ × α) :=
  (ps.enum.reverse).takeWhile (keepIdx c)

/-- The visible window in chronological order (oldest first): the samples
the renderer actually draws. -/
def visibleWindow (c : ℚ) (ps : List α) : List α :=
  ((renderSeq c ps).map Prod.snd).reverse

theorem window_from_eq_drop (c : ℚ) (ps : List α) : ∀ k : ℕ,
    (((List.enumFrom k ps).reverse.takeWhile (keepIdx c)).map Prod.snd).reverse
      = ps.drop (min ps.length (⌈c - k⌉).toNat) := by
  induction ps using List.reverseRecOn with
  | nil => intro k; simp [List.enumFrom]
  | append_singleton qs a ih =>
    intro k
    rw [List.enumFrom_append]
    have henum : List.enumFrom (k + qs.length) [a] = [(k + qs.length, a)] := by
      simp [List.enumFrom]
    rw [henum, List.reverse_append]
    simp only [List.reverse_cons, List.reverse_nil, List.nil_append, List.singleton_append,
      List.takeWhile_cons]
    by_cases hm : ((k + qs.length : ℕ) : ℚ) < c
    · have hm' := hm
      push_cast at hm'
      have hkeep : keepIdx c ((k + qs.length, a) : ℕ × α) = false := by
        simp [keepIdx]
        linarith
      rw [hkeep]
      have hceil : ((qs.length : ℤ)) < ⌈c - k⌉ := by
        rw [Int.lt_ceil]
        push_cast
        push_cast at hm
        linarith
      have hmin : min (qs ++ [a]).length (⌈c - (k : ℚ)⌉).toNat = (qs ++ [a]).length := by
        simp only [List.length_append, List.length_singleton]
        omega
      rw [hmin, List.drop_length]
      simp
    · have hm' := not_lt.mp hm
      push_cast at hm'
      have hkeep : keepIdx c ((k + qs.length, a) : ℕ × α) = true := by
        simp [keepIdx]
        linarith
      rw [hkeep]
      simp only [if_true, List.map_cons, List.reverse_cons]
      have hceil : ⌈c - (k : ℚ)⌉ ≤ (qs.length : ℤ) := by
        rw [Int.ceil_le]
        push_cast
        push_cast at hm
        linarith
      have ht : (⌈c - (k : ℚ)⌉).toNat ≤ qs.length := by omega
      have hmin1 : min qs.length (⌈c - (k : ℚ)⌉).toNat = (⌈c - (k : ℚ)⌉).toNat := by omega
      have hmin2 : min (qs ++ [a]).length (⌈c - (k : ℚ)⌉).toNat = (⌈c - (k : ℚ)⌉).toNat := by
        simp only [List.length_append, List.length_singleton]
        omega
      rw [ih k, hmin1, hmin2, List.drop_append_of_le_length ht]

/-- The `break`-truncated reverse iteration of `drawISS` draws exactly a
suffix of the position list: the window is a `drop`. -/
theorem visibleWindow_eq_drop (c : ℚ) (ps : List α) :
    visibleWindow c ps = ps.drop (min ps.length (⌈c⌉).toNat) := by
  have h := window_from_eq_drop c ps 0
  simpa [visibleWindow, renderSeq, List.enum_eq_enumFrom] using h

theorem getLast?_drop_of_lt {l : List α} {n : ℕ} (h : n < l.length) :
    (l.drop n).getLast? = l.getLast? := by
  conv_rhs => rw [← List.take_append_drop n l]
  rw [List.getLast?_append]
  have hne : l.drop n ≠ [] := by
    intro hcon
    have := List.length_drop n l
    rw [hcon] at this
    simp at this
    omega
  exact (Option.or_of_isSome (List.getLast?_isSome.mpr hne)).symm

/-! ### Images (model of the PIL operations used by `drawISS`)

PIL clips out-of-range drawing, so images are modelled as functions on all
of `ℤ × ℤ`; only `[0,w) × [0,h)` is displayed.  Mode `'L'` pixels are
greyscale values, mode `'1'` pixels are `true` = white / `false` = black. -/

/-- A greyscale image (PIL mode 'L'). -/
def GrayImage : Type := ℤ × ℤ → ℕ

/-- A 1-bit image (PIL mode '1'): `true` = white (255), `false` = black (0). -/
def BWImage : Type := ℤ × ℤ → Bool

/-- `ImageOps.invert` on a mode-'L' image: `v ↦ 255 - v`. -/
def invertL (img : GrayImage) : GrayImage := fun p => 255 - img p

/-- Conversion 'L' → '1': threshold at 128 (PIL's dithering is not modelled). -/
def toBW (img : GrayImage) : BWImage := fun p => decide (128 ≤ img p)

/-- `dst.paste(src, (x0, y0))` of a `w × h` mode-'L' image into a mode-'1'
image: inside the pasted rectangle the source, converted to '1', replaces
the destination. -/
def pasteBW (dst : BWImage) (src : GrayImage) (x0 y0 w h : ℤ) : BWImage :=
  fun p =>
    if x0 ≤ p.1 ∧ p.1 < x0 + w ∧ y0 ≤ p.2 ∧ p.2 < y0 + h then
      toBW src (p.1 - x0, p.2 - y0)
    else dst p

/-- `drawred.ellipse((x-s, y-s, x+s, y+s), fill=0)`: fill the disc of
radius `s` centred at `(x, y)` with black. -/
def fillEllipse (img : BWImage) (x y s : ℤ) : BWImage :=
  fun p =>
    if (p.1 - x) ^ 2 + (p.2 - y) ^ 2 ≤ s ^ 2 then false else img p

/-- The external bitmap assets (`world_map_m.bmp`, `iss.bmp`).  Their
contents are data files, not source, so the renderer is parametric in them. -/
structure Assets where
  worldMap : GrayImage
  issLogo : GrayImage
  logoW : ℤ
  logoH : ℤ

/-- How `drawISS`'s loop body (lines 88-99) treats one sample. -/
inductive Marker where
  | currentPos : Marker
  | majorDot : Marker
  | minorDot : Marker
deriving DecidableEq

/-- `max((int)(BIG_DOT_INTERVAL/DATA_INTERVAL), 1)` — the decimation
stride between two big dots. -/
def strideNat (bigDot dataInterval : ℚ) : ℕ :=
  (max (pyInt (bigDot / dataInterval)) 1).toNat

/-- Classification of sample index `i` out of `n` positions:
`if (i == len(positions) - 1)` → current position (ISS logo),
`elif (i % max((int)(BIG_DOT_INTERVAL/DATA_INTERVAL),1) == 0)` → big dot,
`else` → small dot. -/
def classify (n stride i : ℕ) : Marker :=
  if i = n - 1 then .currentPos
  else if i % stride = 0 then .majorDot
  else .minorDot

/-- The per-sample drawing of `drawISS` (lines 84-99): project the sample
with `getXYFromLonLat`, then paste the ISS logo (centred via `s = 10`),
draw a radius-3 dot, or draw a radius-1 dot. -/
def drawMarker (a : Assets) (n stride : ℕ) (img : BWImage) (it : ℕ × (ℚ × ℚ)) : BWImage :=
  let xy := getXYFromLonLat it.2.1 it.2.2
  match classify n stride it.1 with
  | .currentPos => pasteBW img a.issLogo (xy.1 - 10) (xy.2 - 10) a.logoW a.logoH
  | .majorDot => fillEllipse img xy.1 xy.2 3
  | .minorDot => fillEllipse img xy.1 xy.2 1

/-- The black layer of `drawISS` (lines 65-69): a white frame with the
world map pasted at (0,0), tone-inverted when the current hour is even
(`if ((int)(time.strftime("%H")) % 2 == 0)`). -/
def blackLayer (worldMap : GrayImage) (hour : ℕ) : BWImage :=
  pasteBW (fun _ => true) (if hour % 2 = 0 then invertL worldMap else worldMap)
    0 0 map_width map_height

/-- The red layer of `drawISS` (lines 71-99): a white frame on which the
break-truncated reverse loop draws the logo and the trajectory dots. -/
def redLayer (a : Assets) (maxOrbit dataInterval bigDot : ℚ) (ps : List (ℚ × ℚ)) : BWImage :=
  (renderSeq (maxPositionsToDraw ps.length maxOrbit dataInterval) ps).foldl
    (drawMarker a ps.length (strideNat bigDot dataInterval)) (fun _ => true)

/-- `Display.drawISS(self, positions)`: returns `(imageBlack, imageRed)`.
The wall-clock hour read by `time.strftime("%H")` is an explicit argument,
as are the configuration constants. -/
def drawISS (a : Assets) (maxOrbit dataInterval bigDot : ℚ) (hour : ℕ)
    (ps : List (ℚ × ℚ)) : BWImage × BWImage :=
  (blackLayer a.worldMap hour, redLayer a maxOrbit dataInterval bigDot ps)

/-! ### The sampling / rendering loop of `main` (lines 125-150) -/

/-- The provider's payload `data['iss_position']`: a field is `some v` when
the string parses as the float `v`, and `none` when `float(...)` (or the
key lookup) would raise. -/
structure ApiResponse where
  latitude : Option ℚ
  longitude : Option ℚ

/-- Outcome of `requests.get` + `r.json()`: either an exception or a payload. -/
inductive Fetch where
  | fail : Fetch
  | ok : ApiResponse → Fetch

/-- An uncaught Python exception escaping one iteration of `main`'s loop. -/
inductive LoopErr where
  | netError : LoopErr
  | parseError : LoopErr
  | displayError : LoopErr
deriving DecidableEq

/-- One iteration of `main`'s `while(True)` body (sleeps omitted):
`requests.get`/`r.json()` may raise; `float(...)` may raise; on success the
pair is appended; then, when `DISPLAY_REFRESH_INTERVAL == 1 or
len(positions) % DISPLAY_REFRESH_INTERVAL == 1`, the display is refreshed
with `drawISS`, and `epd.display` may raise (`displayOk = false`).  `main`
installs no exception handler, so `.error` means the process aborts. -/
def loopIter (a : Assets) (hour : ℕ) (displayOk : Bool) (positions : List (ℚ × ℚ))
    (f : Fetch) : Except LoopErr (List (ℚ × ℚ)) :=
  match f with
  | .fail => .error .netError
  | .ok r =>
    match r.latitude, r.longitude with
    | some lat, some lon =>
      let positions := positions ++ [(lat, lon)]
      if DISPLAY_REFRESH_INTERVAL = 1 ∨ positions.length % DISPLAY_REFRESH_INTERVAL = 1 then
        let _layers := drawISS a MAX_ORBIT_TRACES DATA_INTERVAL BIG_DOT_INTERVAL hour positions
        if displayOk then .ok positions else .error .displayError
      else .ok positions
    | _, _ => .error .parseError

/-- Concrete placeholder assets (an all-black map and logo), used to
evaluate the model at specific inputs. -/
def constAssets : Assets := ⟨fun _ => 0, fun _ => 0, 20, 20⟩

/-! ### Helper facts for evaluating the projector -/

theorem hor_factor_eq : hor_factor = 11 / 15 := by
  norm_num [hor_factor, map_width, max_lon]

theorem ver_factor_eq : ver_factor = 181 / 180 := by
  norm_num [ver_factor, map_height, max_lat]

theorem pyInt_eq_of_bounds {q : ℚ} {z : ℤ} (h0 : 0 ≤ q) (h1 : (z : ℚ) ≤ q)
    (h2 : q < (z : ℚ) + 1) : pyInt q = z := by
  rw [pyInt_of_nonneg h0]
  exact Int.floor_eq_iff.mpr ⟨h1, h2⟩

theorem proj_00 : getXYFromLonLat 0 0 = (132, 90) := by
  simp only [getXYFromLonLat, max_lon, max_lat, map_height, hor_factor_eq, ver_factor_eq,
    Prod.mk.injEq]
  constructor
  · exact pyInt_eq_of_bounds (by norm_num) (by norm_num) (by norm_num)
  · exact pyInt_eq_of_bounds (by push_cast; norm_num) (by push_cast; norm_num)
      (by push_cast; norm_num)

theorem proj_lon075 : getXYFromLonLat 0 (3/4) = (132, 90) := by
  simp only [getXYFromLonLat, max_lon, max_lat, map_height, hor_factor_eq, ver_factor_eq,
    Prod.mk.injEq]
  constructor
  · exact pyInt_eq_of_bounds (by norm_num) (by norm_num) (by norm_num)
  · exact pyInt_eq_of_bounds (by push_cast; norm_num) (by push_cast; norm_num)
      (by push_cast; norm_num)

theorem proj_lon180 : getXYFromLonLat 0 180 = (264, 90) := by
  simp only [getXYFromLonLat, max_lon, max_lat, map_height, hor_factor_eq, ver_factor_eq,
    Prod.mk.injEq]
  constructor
  · exact pyInt_eq_of_bounds (by norm_num) (by norm_num) (by norm_num)
  · exact pyInt_eq_of_bounds (by push_cast; norm_num) (by push_cast; norm_num)
      (by push_cast; norm_num)

theorem proj_lon01 : getXYFromLonLat 0 (1/10) = (132, 90) := by
  simp only [getXYFromLonLat, max_lon, max_lat, map_height, hor_factor_eq, ver_factor_eq,
    Prod.mk.injEq]
  constructor
  · exact pyInt_eq_of_bounds (by norm_num) (by norm_num) (by norm_num)
  · exact pyInt_eq_of_bounds (by push_cast; norm_num) (by push_cast; norm_num)
      (by push_cast; norm_num)

theorem proj_lat01 : getXYFromLonLat (1/10) 0 = (132, 90) := by
  simp only [getXYFromLonLat, max_lon, max_lat, map_height, hor_factor_eq, ver_factor_eq,
    Prod.mk.injEq]
  constructor
  · exact pyInt_eq_of_bounds (by norm_num) (by norm_num) (by norm_num)
  · exact pyInt_eq_of_bounds (by push_cast; norm_num) (by push_cast; norm_num)
      (by push_cast; norm_num)

/-! ### Claim C1 — projector formula -/

/-- C1 counterexample: at `lat = 0`, `lon = 0.75` the code returns
`x = 132`, while the spec's formula `round((lon + 180) × map_width / 360)`
gives `133`.  The projector truncates with `int()`, it does not round. -/
theorem C1_counterexample :
    (getXYFromLonLat 0 (3/4)).1 = 132
    ∧ specRound (((3:ℚ)/4 + 180) * 264 / 360) = 133
    ∧ (getXYFromLonLat 0 (3/4)).1 ≠ specRound (((3:ℚ)/4 + 180) * 264 / 360) := by
  have h1 : (getXYFromLonLat 0 (3/4)).1 = 132 := by rw [proj_lon075]
  have h2 : specRound (((3:ℚ)/4 + 180) * 264 / 360) = 133 := by
    rw [specRound, round_eq, Int.floor_eq_iff]
    norm_num
  refine ⟨h1, h2, ?_⟩
  rw [h1, h2]
  decide

/-- C1 (amended): for every latitude in [-90,90] and longitude in
[-180,180], the projector returns `x = ⌊(lon + 180) × map_width / 360⌋` and
`y = ⌊map_height − (lat + 90) × map_height / 180⌋` — Python `int()`
truncation, which equals the floor on these nonnegative arguments — and in
particular (lat = 0, lon = 0) maps to x = 132, y = 90. -/
theorem C1_projector_truncates (lat lon : ℚ)
    (h1 : -90 ≤ lat) (h2 : lat ≤ 90) (h3 : -180 ≤ lon) (h4 : lon ≤ 180) :
    getXYFromLonLat lat lon
      = (⌊(lon + 180) * 264 / 360⌋, ⌊(181 : ℚ) - (lat + 90) * 181 / 180⌋)
    ∧ getXYFromLonLat 0 0 = (132, 90) := by
  refine ⟨?_, proj_00⟩
  simp only [getXYFromLonLat, max_lon, max_lat, map_height, hor_factor_eq, ver_factor_eq,
    Prod.mk.injEq]
  constructor
  · rw [pyInt_of_nonneg (by linarith)]
    congr 1
    ring
  · rw [pyInt_of_nonneg (by push_cast; linarith)]
    congr 1
    push_cast
    ring

/-- Witness for C1 at (lat, lon) = (0, 0). -/
theorem C1_projector_truncates_witness :
    getXYFromLonLat 0 0
      = (⌊((0:ℚ) + 180) * 264 / 360⌋, ⌊(181 : ℚ) - ((0:ℚ) + 90) * 181 / 180⌋)
    ∧ getXYFromLonLat 0 0 = (132, 90) :=
  C1_projector_truncates 0 0 (by norm_num) (by norm_num) (by norm_num) (by norm_num)

/-! ### Claim C2 — projector output bounds -/

/-- C2 counterexample: the valid input (lat = 0, lon = 180) is mapped to
x = 264 = map_width, violating the claimed strict bound `x < map_width`. -/
theorem C2_counterexample :
    getXYFromLonLat 0 180 = (264, 90)
    ∧ ¬((getXYFromLonLat 0 180).1 < map_width) := by
  refine ⟨proj_lon180, ?_⟩
  rw [proj_lon180]
  norm_num [map_width]

/-- C2 (amended): for every latitude in [-90,90] and longitude in
[-180,180], the pixel coordinates satisfy `0 ≤ x ≤ map_width` and
`0 ≤ y ≤ map_height`; the strict upper bounds hold whenever `lon < 180`
(for x) and `-90 < lat` (for y), failing only at the east / south edges. -/
theorem C2_projector_bounds (lat lon : ℚ)
    (h1 : -90 ≤ lat) (h2 : lat ≤ 90) (h3 : -180 ≤ lon) (h4 : lon ≤ 180) :
    0 ≤ (getXYFromLonLat lat lon).1 ∧ (getXYFromLonLat lat lon).1 ≤ map_width
    ∧ 0 ≤ (getXYFromLonLat lat lon).2 ∧ (getXYFromLonLat lat lon).2 ≤ map_height
    ∧ (lon < 180 → (getXYFromLonLat lat lon).1 < map_width)
    ∧ (-90 < lat → (getXYFromLonLat lat lon).2 < map_height) := by
  simp only [getXYFromLonLat, max_lon, max_lat, map_height, map_width, hor_factor_eq,
    ver_factor_eq]
  have hqx0 : (0:ℚ) ≤ (lon + 180) * (11 / 15) := by linarith
  have hqy0 : (0:ℚ) ≤ (((181:ℤ)) : ℚ) - (lat + 90) * (181 / 180) := by
    push_cast
    linarith
  refine ⟨pyInt_nonneg hqx0, pyInt_le_of_le ?_, pyInt_nonneg hqy0, pyInt_le_of_le ?_, ?_, ?_⟩
  · push_cast
    linarith
  · push_cast
    linarith
  · intro hlt
    rw [pyInt_of_nonneg hqx0]
    refine Int.floor_lt.mpr ?_
    push_cast
    linarith
  · intro hlt
    rw [pyInt_of_nonneg hqy0]
    refine Int.floor_lt.mpr ?_
    push_cast
    linarith

/-- Witness for C2 at (lat, lon) = (0, 0). -/
theorem C2_projector_bounds_witness :
    0 ≤ (getXYFromLonLat 0 0).1 ∧ (getXYFromLonLat 0 0).1 ≤ map_width
    ∧ 0 ≤ (getXYFromLonLat 0 0).2 ∧ (getXYFromLonLat 0 0).2 ≤ map_height
    ∧ ((0:ℚ) < 180 → (getXYFromLonLat 0 0).1 < map_width)
    ∧ (-90 < (0:ℚ) → (getXYFromLonLat 0 0).2 < map_height) :=
  C2_projector_bounds 0 0 (by norm_num) (by norm_num) (by norm_num) (by norm_num)

/-! ### Claim C7 — projector monotonicity -/

/-- C7 counterexample: increasing the longitude from 0 to 0.1 leaves
x = 132 unchanged, and increasing the latitude from 0 to 0.1 leaves y = 90
unchanged: the projector is not strictly monotone. -/
theorem C7_counterexample :
    (0:ℚ) < 1/10
    ∧ (getXYFromLonLat 0 (1/10)).1 = (getXYFromLonLat 0 0).1
    ∧ (getXYFromLonLat (1/10) 0).2 = (getXYFromLonLat 0 0).2 := by
  refine ⟨by norm_num, ?_, ?_⟩
  · rw [proj_lon01, proj_00]
  · rw [proj_lat01, proj_00]

/-- C7 (amended): for a fixed latitude, increasing the longitude weakly
increases x; for a fixed longitude, increasing the latitude weakly
decreases y.  Strict monotonicity fails because `int()` truncation
collapses nearby inputs to the same pixel. -/
theorem C7_projector_monotone :
    (∀ lat lon₁ lon₂ : ℚ, lon₁ ≤ lon₂ →
      (getXYFromLonLat lat lon₁).1 ≤ (getXYFromLonLat lat lon₂).1)
    ∧ (∀ lon lat₁ lat₂ : ℚ, lat₁ ≤ lat₂ →
      (getXYFromLonLat lat₂ lon).2 ≤ (getXYFromLonLat lat₁ lon).2) := by
  constructor
  · intro lat lon₁ lon₂ h
    simp only [getXYFromLonLat, max_lon, hor_factor_eq]
    exact pyInt_mono (by linarith)
  · intro lon lat₁ lat₂ h
    simp only [getXYFromLonLat, max_lat, map_height, ver_factor_eq]
    refine pyInt_mono ?_
    push_cast
    linarith

/-- Witness for C7: moving east from (0,0) to (0,1) does not decrease x,
and moving north from (0,0) to (1,0) does not increase y. -/
theorem C7_projector_monotone_witness :
    (getXYFromLonLat 0 0).1 ≤ (getXYFromLonLat 0 1).1
    ∧ (getXYFromLonLat 1 0).2 ≤ (getXYFromLonLat 0 0).2 :=
  ⟨C7_projector_monotone.1 0 0 1 (by norm_num),
   C7_projector_monotone.2 0 0 1 (by norm_num)⟩

/-! ### Claim C3 — visible window size -/

/-- C3 (confirmed): with sampling interval 15 s, max_orbit_units 1.0 and
orbit period 90 × 60 = 5400 s, the visible count is 360; for any store of
500 samples the rendered window is exactly the 360 newest samples
(`drop 140`), has length 360, and ends at the newest sample. -/
theorem C3_window_size (ps : List (ℚ × ℚ)) (h : ps.length = 500) :
    visibleCount 1 15 = 360
    ∧ visibleWindow (maxPositionsToDraw ps.length 1 15) ps = ps.drop 140
    ∧ (visibleWindow (maxPositionsToDraw ps.length 1 15) ps).length = 360
    ∧ (visibleWindow (maxPositionsToDraw ps.length 1 15) ps).getLast? = ps.getLast? := by
  have hvc : visibleCount 1 15 = 360 := by norm_num [visibleCount]
  have hc : maxPositionsToDraw ps.length 1 15 = ((140 : ℤ) : ℚ) := by
    rw [maxPositionsToDraw, hvc, h]
    norm_num
  have hwin : visibleWindow (maxPositionsToDraw ps.length 1 15) ps = ps.drop 140 := by
    rw [visibleWindow_eq_drop, hc, Int.ceil_intCast, h]
    rfl
  refine ⟨hvc, hwin, ?_, ?_⟩
  · rw [hwin, List.length_drop, h]
  · rw [hwin]
    exact getLast?_drop_of_lt (by rw [h]; norm_num)

/-- Witness for C3 on a concrete store of 500 samples. -/
theorem C3_window_size_witness :
    visibleCount 1 15 = 360
    ∧ visibleWindow (maxPositionsToDraw (List.replicate 500 ((0:ℚ), (0:ℚ))).length 1 15)
        (List.replicate 500 ((0:ℚ), (0:ℚ)))
      = (List.replicate 500 ((0:ℚ), (0:ℚ))).drop 140
    ∧ (visibleWindow (maxPositionsToDraw (List.replicate 500 ((0:ℚ), (0:ℚ))).length 1 15)
        (List.replicate 500 ((0:ℚ), (0:ℚ)))).length = 360
    ∧ (visibleWindow (maxPositionsToDraw (List.replicate 500 ((0:ℚ), (0:ℚ))).length 1 15)
        (List.replicate 500 ((0:ℚ), (0:ℚ)))).getLast?
      = (List.replicate 500 ((0:ℚ), (0:ℚ))).getLast? :=
  C3_window_size (List.replicate 500 ((0:ℚ), (0:ℚ))) (by rw [List.length_replicate])

/-! ### Claim C4 — marker decimation -/

/-- C4 (confirmed): with sampling interval 15 s and major-marker interval
600 s the decimation stride is `max(int(600/15), 1) = 40`; the renderer
classifies a non-newest sample at absolute index `i` with `i % 40 == 0` as
a big (major) dot, any other non-newest sample as a small (minor) dot, and
the newest sample as the current position regardless of the stride. -/
theorem C4_decimation :
    strideNat 600 15 = 40
    ∧ (∀ n i : ℕ, i ≠ n - 1 → i % 40 = 0 → classify n (strideNat 600 15) i = .majorDot)
    ∧ (∀ n i : ℕ, i ≠ n - 1 → i % 40 ≠ 0 → classify n (strideNat 600 15) i = .minorDot)
    ∧ (∀ stride n : ℕ, classify n stride (n - 1) = .currentPos) := by
  have hq : ((600 : ℚ) / 15) = ((40 : ℤ) : ℚ) := by norm_num
  have hs : strideNat 600 15 = 40 := by
    rw [strideNat, hq, pyInt_of_nonneg (by norm_num), Int.floor_intCast]
    rfl
  refine ⟨hs, ?_, ?_, ?_⟩
  · intro n i hne hmod
    rw [hs]
    simp [classify, hne, hmod]
  · intro n i hne hmod
    rw [hs]
    simp [classify, hne, hmod]
  · intro stride n
    simp [classify]

/-- Witness for C4: with 41 samples, index 0 is a big dot, index 1 a small
dot, and index 40 (the newest) the current position. -/
theorem C4_decimation_witness :
    classify 41 (strideNat 600 15) 0 = .majorDot
    ∧ classify 41 (strideNat 600 15) 1 = .minorDot
    ∧ classify 41 (strideNat 600 15) 40 = .currentPos :=
  ⟨C4_decimation.2.1 41 0 (by decide) (by decide),
   C4_decimation.2.2.1 41 1 (by decide) (by decide),
   C4_decimation.2.2.2 (strideNat 600 15) 41⟩

/-! ### Claim C5 — append-only store, window ends at the newest sample -/

/-- C5 (confirmed): every successful loop iteration only appends — the new
sequence is the old one with exactly one sample added at the end, so the
full sequence is never truncated — and for every non-empty sequence the
window rendered with the script's constants ends at the newest sample. -/
theorem C5_append_only (a : Assets) (hour : ℕ) (displayOk : Bool)
    (ps ps' : List (ℚ × ℚ)) (f : Fetch)
    (h : loopIter a hour displayOk ps f = .ok ps') :
    (∃ p, ps' = ps ++ [p])
    ∧ (∀ qs : List (ℚ × ℚ), qs ≠ [] →
        (visibleWindow (maxPositionsToDraw qs.length MAX_ORBIT_TRACES DATA_INTERVAL)
          qs).getLast? = qs.getLast?) := by
  constructor
  · rcases f with _ | r
    · exact absurd h (by simp [loopIter])
    · rcases hr1 : r.latitude with _ | la
      · simp only [loopIter, hr1] at h
        exact absurd h (by simp)
      · rcases hr2 : r.longitude with _ | lo
        · simp only [loopIter, hr1, hr2] at h
          exact absurd h (by simp)
        · simp only [loopIter, hr1, hr2] at h
          refine ⟨(la, lo), ?_⟩
          split at h
          · split at h
            · exact (Except.ok.inj h).symm
            · exact absurd h (by simp)
          · exact (Except.ok.inj h).symm
  · intro qs hqs
    rw [visibleWindow_eq_drop]
    apply getLast?_drop_of_lt
    have hlen : 0 < qs.length := List.length_pos.mpr hqs
    have hceil : ⌈maxPositionsToDraw qs.length MAX_ORBIT_TRACES DATA_INTERVAL⌉
        ≤ (qs.length : ℤ) - 1 := by
      apply Int.ceil_le.mpr
      rw [maxPositionsToDraw, visibleCount, MAX_ORBIT_TRACES, DATA_INTERVAL]
      push_cast
      linarith
    omega

/-- Witness for C5: from the empty store, a successful fetch of (1, 2)
yields the store `[(1, 2)]`. -/
theorem C5_append_only_witness :
    (∃ p, [((1:ℚ), (2:ℚ))] = ([] : List (ℚ × ℚ)) ++ [p])
    ∧ (∀ qs : List (ℚ × ℚ), qs ≠ [] →
        (visibleWindow (maxPositionsToDraw qs.length MAX_ORBIT_TRACES DATA_INTERVAL)
          qs).getLast? = qs.getLast?) :=
  C5_append_only constAssets 1 true [] [(1, 2)] (.ok ⟨some 1, some 2⟩)
    (by norm_num [loopIter, DISPLAY_REFRESH_INTERVAL])

/-! ### Claim C6 — render idempotence -/

/-- C6 counterexample: rendering the same (empty) window at hour 0 and at
hour 1 produces different basemap (black) layers, because the basemap is
tone-inverted on even hours; two calls of the renderer on the same window
are therefore not always bit-identical. -/
theorem C6_counterexample :
    (drawISS constAssets MAX_ORBIT_TRACES DATA_INTERVAL BIG_DOT_INTERVAL 0 []).1
      ≠ (drawISS constAssets MAX_ORBIT_TRACES DATA_INTERVAL BIG_DOT_INTERVAL 1 []).1 := by
  intro hcon
  have h := congrFun hcon ((0:ℤ), (0:ℤ))
  norm_num [drawISS, blackLayer, pasteBW, toBW, invertL, constAssets, map_width, map_height] at h

/-- C6 (amended): the renderer is deterministic given the window and the
hour parity: two calls at hours of equal parity produce bit-identical
black and red layers (and by C10 the red layer never depends on the hour
at all). -/
theorem C6_render_deterministic (a : Assets) (mo di bd : ℚ) (h₁ h₂ : ℕ)
    (ps : List (ℚ × ℚ)) (hpar : h₁ % 2 = h₂ % 2) :
    drawISS a mo di bd h₁ ps = drawISS a mo di bd h₂ ps := by
  unfold drawISS blackLayer
  rw [hpar]

/-- Witness for C6 at hours 0 and 2 on the empty window. -/
theorem C6_render_deterministic_witness :
    drawISS constAssets MAX_ORBIT_TRACES DATA_INTERVAL BIG_DOT_INTERVAL 0 []
      = drawISS constAssets MAX_ORBIT_TRACES DATA_INTERVAL BIG_DOT_INTERVAL 2 [] :=
  C6_render_deterministic constAssets MAX_ORBIT_TRACES DATA_INTERVAL BIG_DOT_INTERVAL 0 2 [] rfl

/-! ### Claim C8 — failure propagation in the loop -/

/-- C8 counterexample: with an empty store, a failed fetch makes the
iteration end in an uncaught exception (`netError`) — not in the unchanged
store with the loop continuing — and a display failure on a refresh cycle
ends in `displayError`: `main` has no handler, so the process terminates. -/
theorem C8_counterexample :
    loopIter constAssets 1 true [] .fail = .error .netError
    ∧ loopIter constAssets 1 true [] .fail ≠ .ok []
    ∧ loopIter constAssets 1 false [] (.ok ⟨some 0, some 0⟩) = .error .displayError := by
  refine ⟨rfl, by simp [loopIter], rfl⟩

/-- C8 (amended): `main` installs no exception handler, so a failed
provider request (network error or malformed payload) propagates and
terminates the process — nothing, in particular no placeholder, is
appended — and a display failure on a refresh cycle likewise terminates
the process instead of letting the loop continue. -/
theorem C8_failures_abort (a : Assets) (hour : ℕ) (displayOk : Bool)
    (ps : List (ℚ × ℚ)) :
    loopIter a hour displayOk ps .fail = .error .netError
    ∧ (∀ r : ApiResponse, r.latitude = none ∨ r.longitude = none →
        loopIter a hour displayOk ps (.ok r) = .error .parseError)
    ∧ (∀ la lo : ℚ, (ps.length + 1) % DISPLAY_REFRESH_INTERVAL = 1 →
        loopIter a hour false ps (.ok ⟨some la, some lo⟩) = .error .displayError) := by
  refine ⟨rfl, ?_, ?_⟩
  · intro r hr
    rcases hla : r.latitude with _ | la
    · simp [loopIter, hla]
    · rcases hlo : r.longitude with _ | lo
      · simp [loopIter, hla, hlo]
      · rcases hr with hr | hr
        · rw [hla] at hr
          exact absurd hr (by simp)
        · rw [hlo] at hr
          exact absurd hr (by simp)
  · intro la lo hlen
    have hcond : DISPLAY_REFRESH_INTERVAL = 1 ∨
        (ps ++ [(la, lo)]).length % DISPLAY_REFRESH_INTERVAL = 1 := by
      right
      simpa using hlen
    simp only [loopIter]
    rw [if_pos hcond]
    rfl

/-- Witness for C8: a failed fetch, a payload whose latitude does not
parse, and a display failure on the first refresh, each abort. -/
theorem C8_failures_abort_witness :
    loopIter constAssets 0 true [] .fail = .error .netError
    ∧ loopIter constAssets 0 true [] (.ok ⟨none, some 3⟩) = .error .parseError
    ∧ loopIter constAssets 0 false [] (.ok ⟨some 3, some 4⟩) = .error .displayError :=
  ⟨(C8_failures_abort constAssets 0 true []).1,
   (C8_failures_abort constAssets 0 true []).2.1 ⟨none, some 3⟩ (Or.inl rfl),
   (C8_failures_abort constAssets 0 false []).2.2 3 4 (by norm_num [DISPLAY_REFRESH_INTERVAL])⟩

/-! ### Claim C9 — input validation -/

/-- C9 counterexample: the out-of-range latitude 500 parses as a float, is
appended to the store and used: `main` performs no geographic-range check
before appending. -/
theorem C9_counterexample :
    loopIter constAssets 1 true [] (.ok ⟨some 500, some 0⟩) = .ok [(500, 0)]
    ∧ ¬((500:ℚ) ≤ 90) := by
  refine ⟨rfl, by norm_num⟩

/-- C9 (amended): the core parses both provider fields as floats (an
unparsable field raises instead, aborting the process — see C8), but it
performs no geographic-range validation: any parsed pair, inside or
outside [-90,90] × [-180,180], is appended and used. -/
theorem C9_no_range_validation (a : Assets) (hour : ℕ) (ps : List (ℚ × ℚ))
    (la lo : ℚ) :
    loopIter a hour true ps (.ok ⟨some la, some lo⟩) = .ok (ps ++ [(la, lo)]) := by
  simp only [loopIter]
  split
  · rfl
  · rfl

/-! ### Claim C10 — hour dependence of the two layers -/

/-- C10 (confirmed): the trajectory (red) layer is independent of the
wall-clock hour at which rendering happens; the basemap (black) layer is
the pasted tone-inverted world map exactly on even hours and the pasted
plain world map on odd hours, and those two black layers always differ. -/
theorem C10_hour_dependence (a : Assets) (mo di bd : ℚ) (h₁ h₂ : ℕ)
    (ps : List (ℚ × ℚ)) :
    (drawISS a mo di bd h₁ ps).2 = (drawISS a mo di bd h₂ ps).2
    ∧ (h₁ % 2 = 0 →
        (drawISS a mo di bd h₁ ps).1
          = pasteBW (fun _ => true) (invertL a.worldMap) 0 0 map_width map_height)
    ∧ (h₁ % 2 ≠ 0 →
        (drawISS a mo di bd h₁ ps).1
          = pasteBW (fun _ => true) a.worldMap 0 0 map_width map_height)
    ∧ pasteBW (fun _ => true) (invertL a.worldMap) 0 0 map_width map_height
        ≠ pasteBW (fun _ => true) a.worldMap 0 0 map_width map_height := by
  refine ⟨rfl, ?_, ?_, ?_⟩
  · intro hp
    simp [drawISS, blackLayer, hp]
  · intro hp
    simp [drawISS, blackLayer, hp]
  · intro hcon
    have h := congrFun hcon ((0:ℤ), (0:ℤ))
    norm_num [pasteBW, toBW, invertL, map_width, map_height] at h
    omega

/-- Witness for C10 at hours 0 and 5 on the empty window, with the even
hour's basemap obtained in its inverted form. -/
theorem C10_hour_dependence_witness :
    (drawISS constAssets MAX_ORBIT_TRACES DATA_INTERVAL BIG_DOT_INTERVAL 0 []).2
      = (drawISS constAssets MAX_ORBIT_TRACES DATA_INTERVAL BIG_DOT_INTERVAL 5 []).2
    ∧ (drawISS constAssets MAX_ORBIT_TRACES DATA_INTERVAL BIG_DOT_INTERVAL 0 []).1
        = pasteBW (fun _ => true) (invertL constAssets.worldMap) 0 0 map_width map_height :=
  ⟨(C10_hour_dependence constAssets MAX_ORBIT_TRACES DATA_INTERVAL BIG_DOT_INTERVAL 0 5 []).1,
   (C10_hour_dependence constAssets MAX_ORBIT_TRACES DATA_INTERVAL BIG_DOT_INTERVAL 0 5 []).2.1
     rfl⟩
